import Mathlib

/-!
Verification development for the LoRaCheck gateway monitor.

The repository is a small Go program that periodically polls configured
IoT-gateway URLs for an online flag, publishes the results as labeled
Prometheus gauge series, and writes a Grafana dashboard-definition file.
We give a shallow embedding of its data model and operations:

* HTTP responses are modeled by an explicit result type (`HttpResult`),
  since the network is external to the program; the JSON parse outcome of
  a body is modeled directly (`BodyResult`), abstracting the stdlib JSON
  text parser.
* Go `time.Time` values produced by `time.Parse(time.RFC3339, s)` are
  modeled opaquely by their RFC3339 rendering (`GoTime`); the Go zero
  value `time.Time{}` is modeled as `none`, and `time.Parse` itself
  (stdlib) is a parameter of the model.
* Go `float64` values are modeled opaquely by their bit pattern
  (`GoFloat`): the program performs no arithmetic on them, it only
  formats them with `fmt.Sprintf`, which we take as a parameter.
* Prometheus `GaugeVec`s are modeled as association lists from label
  tuples to gauge values, with overwrite-in-place insertion.
-/

namespace LoRaCheck

/-- Opaque model of a Go `float64`: its 64-bit pattern. The program never
computes with coordinates, it only formats them. -/
structure GoFloat where
  bits : Nat
deriving DecidableEq

/-- Model of a non-zero Go `time.Time` as produced by a successful
`time.Parse(time.RFC3339, s)`, represented by its RFC3339 rendering.
The Go zero value `time.Time{}` is modeled as `none : Option GoTime`. -/
structure GoTime where
  rfc3339 : String
deriving DecidableEq

/-- Generic JSON document, the shape `encoding/json` decodes into
`map[string]interface{}` values. Object fields model the decoded Go map,
so keys are taken to be unique (Go keeps the last duplicate). -/
inductive Json where
  | null
  | bool (b : Bool)
  | num (x : GoFloat)
  | str (s : String)
  | arr (xs : List Json)
  | obj (fields : List (String × Json))

/-- First-match association-list lookup; models Go map indexing
`result[k]` over the decoded object fields. -/
def lookupAssoc {K V : Type} [DecidableEq K] (k : K) : List (K × V) → Option V
  | [] => none
  | (k2, v2) :: rest => if k2 = k then some v2 else lookupAssoc k rest

/-- Overwrite-in-place insertion: models `GaugeVec.With(labels).Set(v)`,
which updates the series for an existing label combination and creates
it otherwise. -/
def setAssoc {K V : Type} [DecidableEq K] (k : K) (v : V) : List (K × V) → List (K × V)
  | [] => [(k, v)]
  | (k2, v2) :: rest => if k2 = k then (k, v) :: rest else (k2, v2) :: setAssoc k v rest

/-- Keys of an association list (the label combinations of the series). -/
def keysOf {K V : Type} (s : List (K × V)) : List K :=
  s.map Prod.fst

/-- Go type assertion `v.(bool)` on an optional JSON field. -/
def asBool : Option Json → Option Bool
  | some (Json.bool b) => some b
  | _ => none

/-- Go type assertion `v.(string)` on an optional JSON field. -/
def asString : Option Json → Option String
  | some (Json.str s) => some s
  | _ => none

/-- One `{type, url}` check entry of a gateway (struct `Gateway.Checks`
element in `main.go`). -/
structure Check where
  type : String
  url : String
deriving DecidableEq

/-- Geographic coordinates of a gateway (struct `Gateway.Location`). -/
structure Location where
  latitude : GoFloat
  longitude : GoFloat
deriving DecidableEq

/-- One monitored gateway (struct `Gateway` in `main.go`). -/
structure Gateway where
  name : String
  location : Location
  checks : List Check
deriving DecidableEq

/-- Top-level configuration container (struct `GatewaysFile`). -/
structure GatewaysFile where
  gateways : List Gateway
deriving DecidableEq

/-- Outcome of reading the body of an HTTP response:
`ioutil.ReadAll` may fail, `json.Unmarshal` into
`map[string]interface{}` may fail (invalid JSON text or a non-object
document), or it yields the decoded object fields. -/
inductive BodyResult where
  | readError
  | notObject
  | object (fields : List (String × Json))

/-- Outcome of `http.Get(url)`: a transport failure (DNS, connection
refused, timeout), or a response with a status code and a body. -/
inductive HttpResult where
  | transportError
  | response (status : Nat) (body : BodyResult)

/-- Fetcher of the timestamp-extracting backend variant
(`FetchGatewayLinkStatus`, unnamed part_002 lines 99-147). The stdlib
RFC3339 parser `time.Parse` is the parameter `parseRFC3339`; the Go zero
time returned on the failure paths is modeled as `none`. -/
def FetchGatewayLinkStatus (parseRFC3339 : String → Option GoTime)
    (resp : HttpResult) : Bool × Option GoTime :=
  match resp with
  | .transportError => (false, none)
  | .response status body =>
    if status ≠ 200 then (false, none)
    else
      match body with
      | .readError => (false, none)
      | .notObject => (false, none)
      | .object fields =>
        match asBool (lookupAssoc "online" fields) with
        | none => (false, none)
        | some online =>
          match asString (lookupAssoc "updatedAt" fields) with
          | none => (online, none)
          | some s =>
            match parseRFC3339 s with
            | none => (online, none)
            | some t => (online, some t)

/-- Fetcher of the simpler backend variant
(`FetchGatewayLinkStatus` in `src/go-backend/main.go` lines 89-123),
which returns only the boolean status. -/
def FetchGatewayLinkStatusSimple (resp : HttpResult) : Bool :=
  match resp with
  | .transportError => false
  | .response status body =>
    if status ≠ 200 then false
    else
      match body with
      | .readError => false
      | .notObject => false
      | .object fields =>
        match asBool (lookupAssoc "online" fields) with
        | none => false
        | some online => online

/-- Format of `updatedAt.Format(time.RFC3339)` in `UpdateGatewayStatus`:
the Go zero time renders as `"0001-01-01T00:00:00Z"`, a parsed time as
its RFC3339 rendering. -/
def formatRFC3339 : Option GoTime → String
  | none => "0001-01-01T00:00:00Z"
  | some t => t.rfc3339

/-- The three registered `GaugeVec`s (`gatewayLinkStatus`,
`gatewayLocation`, `gatewayLastUpdate` in unnamed part_002 lines 36-62),
each an association list from its label tuple to the gauge value. The
program only ever writes the values 0 and 1, modeled as `Nat`. -/
structure Registry where
  gatewayLinkStatus : List ((String × String) × Nat)
  gatewayLocation : List ((String × String × String) × Nat)
  gatewayLastUpdate : List ((String × String) × Nat)
deriving DecidableEq

/-- The registry state at process start: no series exist yet. -/
def emptyRegistry : Registry :=
  { gatewayLinkStatus := [], gatewayLocation := [], gatewayLastUpdate := [] }

/-- Write `gateway_link_status{gateway_name, link_url} = 1|0`
(part_002 lines 171-174). -/
def setLinkStatus (reg : Registry) (gatewayName url : String) (online : Bool) : Registry :=
  { reg with gatewayLinkStatus :=
      setAssoc (gatewayName, url) (if online then 1 else 0) reg.gatewayLinkStatus }

/-- Write `gateway_location{gateway_name, latitude, longitude} = 1`
(part_002 lines 152-156); coordinates arrive already formatted. -/
def setLocation (reg : Registry) (gatewayName lat lon : String) : Registry :=
  { reg with gatewayLocation :=
      setAssoc (gatewayName, lat, lon) 1 reg.gatewayLocation }

/-- Write `gateway_last_update_timestamp{gateway_name, last_update} = 1`
(part_002 lines 177-180). -/
def setLastUpdate (reg : Registry) (gatewayName lastUpdate : String) : Registry :=
  { reg with gatewayLastUpdate :=
      setAssoc (gatewayName, lastUpdate) 1 reg.gatewayLastUpdate }

/-- Body of the per-check loop in `UpdateGatewayStatus` (part_002 lines
161-183): fetch the check's URL, set the link-status series, then set
the last-update series with the formatted timestamp. The accumulator
also records the URLs fetched, in order, as the trace of fetcher
invocations (the code logs one line per fetch). `env` maps a URL to the
HTTP outcome the network would produce for it during this cycle. -/
def processCheck (parseRFC3339 : String → Option GoTime) (env : String → HttpResult)
    (gatewayName : String) (acc : Registry × List String) (check : Check) :
    Registry × List String :=
  let r := FetchGatewayLinkStatus parseRFC3339 (env check.url)
  let reg1 := setLinkStatus acc.1 gatewayName check.url r.1
  let reg2 := setLastUpdate reg1 gatewayName (formatRFC3339 r.2)
  (reg2, acc.2 ++ [check.url])

/-- `UpdateGatewayStatus` (part_002 lines 150-184): set the location
series for the gateway once, then process each check in order. `fmtF`
models `fmt.Sprintf("%f", ·)` on the coordinates. Returns the updated
registry and the trace of fetched URLs. -/
def UpdateGatewayStatus (parseRFC3339 : String → Option GoTime) (fmtF : GoFloat → String)
    (env : String → HttpResult) (reg : Registry) (gw : Gateway) :
    Registry × List String :=
  let reg0 := setLocation reg gw.name (fmtF gw.location.latitude) (fmtF gw.location.longitude)
  gw.checks.foldl (processCheck parseRFC3339 env gw.name) (reg0, [])

/-- One iteration of the inner loop of `MonitorGateways` (part_002
lines 189-191): update one gateway, accumulating the fetch trace. -/
def cycleStep (parseRFC3339 : String → Option GoTime) (fmtF : GoFloat → String)
    (env : String → HttpResult) (acc : Registry × List String) (gw : Gateway) :
    Registry × List String :=
  let r := UpdateGatewayStatus parseRFC3339 fmtF env acc.1 gw
  (r.1, acc.2 ++ r.2)

/-- One full cycle of `MonitorGateways` (part_002 lines 188-191): call
`UpdateGatewayStatus` for every gateway in configuration order. The
enclosing infinite loop sleeps `fetchInterval` between cycles; the cycle
body is the testable unit modeled here. -/
def MonitorCycle (parseRFC3339 : String → Option GoTime) (fmtF : GoFloat → String)
    (env : String → HttpResult) (gf : GatewaysFile) (reg : Registry) :
    Registry × List String :=
  gf.gateways.foldl (cycleStep parseRFC3339 fmtF env) (reg, [])

/-- Total number of links M over all gateways of a configuration. -/
def totalChecks (gf : GatewaysFile) : Nat :=
  (gf.gateways.map (fun gw => gw.checks.length)).sum

/-- Largest value of Go's 64-bit `int` on the deployment platforms. -/
def int64Max : Int := 9223372036854775807

/-- Smallest value of Go's 64-bit `int`. -/
def int64Min : Int := -9223372036854775808

/-- Reduce an integer into the signed 64-bit range with two's-complement
wraparound, the defined behavior of Go integer multiplication. -/
def wrap64 (n : Int) : Int :=
  (n + 9223372036854775808) % 18446744073709551616 - 9223372036854775808

/-- Value of a nonempty all-digit character list, `none` otherwise. -/
def digitsVal : List Char → Option Nat
  | [] => none
  | [c] => if c.isDigit then some (c.toNat - 48) else none
  | c :: rest =>
    if c.isDigit then
      match digitsVal rest with
      | none => none
      | some m => some ((c.toNat - 48) * 10 ^ rest.length + m)
    else none

/-- Model of Go `strconv.Atoi`: an optional sign followed by at least
one decimal digit, with the result required to fit a 64-bit `int`
(`strconv.ErrRange` otherwise); any other string is a syntax error.
Errors are `none` (the clamped value Go also returns is unused by the
program). -/
def goAtoi (s : String) : Option Int :=
  match s.toList with
  | [] => none
  | c :: rest =>
    let signed : Bool × List Char :=
      if c = '-' then (true, rest) else if c = '+' then (false, rest) else (false, c :: rest)
    match digitsVal signed.2 with
    | none => none
    | some m =>
      let v : Int := if signed.1 then -(m : Int) else (m : Int)
      if v < int64Min ∨ int64Max < v then none else some v

/-- One minute in nanoseconds: the value of `time.Minute`, and the unit
of Go `time.Duration`. -/
def minuteNs : Int := 60000000000

/-- Interval computation of `init` (part_002 lines 74-80): read
`FETCH_INTERVAL` (`os.Getenv` yields `""` when the variable is absent),
parse with `strconv.Atoi`; on error or a non-positive value use the
default of one minute, otherwise `time.Duration(interval) * time.Minute`
computed in wrapping 64-bit arithmetic. The result is the cycle interval
in nanoseconds, fixed for the process lifetime. -/
def fetchIntervalOf (envVal : Option String) : Int :=
  match goAtoi (envVal.getD "") with
  | none => minuteNs
  | some n => if n ≤ 0 then minuteNs else wrap64 (n * minuteNs)

/-- Zero value of `Location`, as left by structural decoding when the
field is absent. -/
def zeroLocation : Location :=
  { latitude := ⟨0⟩, longitude := ⟨0⟩ }

/-- Zero value of `Gateway`. -/
def zeroGateway : Gateway :=
  { name := "", location := zeroLocation, checks := [] }

/-- Decode a JSON value into a Go `string` field: a JSON string is
taken, JSON `null` is a no-op leaving the zero value `""`, anything else
is an `UnmarshalTypeError`. -/
def decodeGoString : Json → Option String
  | .str s => some s
  | .null => some ""
  | _ => none

/-- Decode a JSON value into a Go `float64` field: a JSON number is
taken, `null` leaves the zero value, anything else errors. -/
def decodeGoFloat : Json → Option GoFloat
  | .num x => some x
  | .null => some ⟨0⟩
  | _ => none

/-- Decode one object field into a struct field: a missing JSON field is
tolerated and leaves the zero value; a present field must decode. -/
def decodeField {α : Type} (fields : List (String × Json)) (k : String)
    (dec : Json → Option α) (zero : α) : Option α :=
  match lookupAssoc k fields with
  | none => some zero
  | some v => dec v

/-- Decode the `location` object of a gateway. -/
def decodeLocation : Json → Option Location
  | .null => some zeroLocation
  | .obj fs => do
    let lat ← decodeField fs "latitude" decodeGoFloat ⟨0⟩
    let lon ← decodeField fs "longitude" decodeGoFloat ⟨0⟩
    some { latitude := lat, longitude := lon }
  | _ => none

/-- Decode one `{type, url}` check entry. -/
def decodeCheck : Json → Option Check
  | .null => some { type := "", url := "" }
  | .obj fs => do
    let t ← decodeField fs "type" decodeGoString ""
    let u ← decodeField fs "url" decodeGoString ""
    some { type := t, url := u }
  | _ => none

/-- Decode a JSON value into a Go slice: an array decodes elementwise,
`null` leaves the zero value (nil slice), anything else errors. -/
def decodeGoList {α : Type} (dec : Json → Option α) : Json → Option (List α)
  | .null => some []
  | .arr xs => xs.mapM dec
  | _ => none

/-- Decode one gateway object. -/
def decodeGateway : Json → Option Gateway
  | .null => some zeroGateway
  | .obj fs => do
    let n ← decodeField fs "name" decodeGoString ""
    let loc ← decodeField fs "location" decodeLocation zeroLocation
    let cs ← decodeField fs "checks" (decodeGoList decodeCheck) []
    some { name := n, location := loc, checks := cs }
  | _ => none

/-- Decode the top-level `GatewaysFile` document, the shape
`json.Unmarshal(data, &gateways)` expects: an object whose optional
`gateways` field is an array of gateway objects; unknown fields are
ignored, missing fields decode to zero values, type mismatches error. -/
def decodeGatewaysFile : Json → Option GatewaysFile
  | .null => some { gateways := [] }
  | .obj fs => do
    let gws ← decodeField fs "gateways" (decodeGoList decodeGateway) []
    some { gateways := gws }
  | _ => none

/-- Outcome of `ioutil.ReadFile`: failure, or file content given by its
JSON parse outcome (`none` when the bytes are not valid JSON text; the
stdlib text parser is abstracted into this outcome). -/
inductive ReadResult where
  | readError
  | ok (doc : Option Json)

/-- `LoadGatewaysConfig` (part_002 lines 84-96): propagate a read
failure, propagate a JSON parse or decode failure of `json.Unmarshal`,
otherwise return the decoded configuration. A pure function of the read
outcome: the read is its only effect. -/
def LoadGatewaysConfig (r : ReadResult) : Option GatewaysFile :=
  match r with
  | .readError => none
  | .ok none => none
  | .ok (some doc) => decodeGatewaysFile doc

/-- Fixed output path hard-coded in `createDashboardFile`
(unnamed part_001 line 37). -/
def dashboardPath : String := "/var/lib/grafana/dashboards/gateway-dashboard.json"

/-- The constant `dashboardTemplate` of unnamed part_001 lines 9-32, a
Go raw string. It contains no template actions, so executing it with
`nil` data reproduces it verbatim. -/
def dashboardTemplate : String :=
  "\n\x7b\n  \"id\": null,\n  \"title\": \"Gateway Monitor Dashboard\",\n  \"tags\": [],\n  \"timezone\": \"browser\",\n  \"schemaVersion\": 16,\n  \"version\": 1,\n  \"panels\": [\n    \x7b\n      \"type\": \"stat\",\n      \"title\": \"Gateway Uptime\",\n      \"targets\": [\n        \x7b\n          \"expr\": \"up\",\n          \"legendFormat\": \"instance\",\n          \"refId\": \"A\"\n        \x7d\n      ],\n      \"datasource\": \"Prometheus\"\n    \x7d\n  ]\n\x7d\n"

/-- The filesystem visible to the renderer: paths mapped to contents. -/
def FileSystem : Type := List (String × String)

/-- `createDashboardFile` (unnamed part_001 lines 35-57): create (or
truncate) the single hard-coded file and write the fixed template into
it. It takes no gateway input; the template is executed with `nil` data.
Write failures are fatal (`log.Fatalf`) and outside the state modeled
here. -/
def createDashboardFile (fs : FileSystem) : FileSystem :=
  setAssoc dashboardPath dashboardTemplate fs

/-- Modelled from the spec (section 4.2 step 4), for comparison with the
code: the claimed precedence for locating the online signal — a
top-level boolean `online` field if present, otherwise a boolean
`online` field nested under a field matching the gateway's own name.
No such nested lookup exists anywhere in the source. -/
def specLocateOnline (gatewayName : String) (fields : List (String × Json)) : Option Bool :=
  match asBool (lookupAssoc "online" fields) with
  | some b => some b
  | none =>
    match lookupAssoc gatewayName fields with
    | some (Json.obj inner) => asBool (lookupAssoc "online" inner)
    | _ => none

/-- Stand-in for `time.Parse` that fails on every input; used to
instantiate the parser parameter in concrete witnesses where no
timestamp is involved. -/
def parseTimeNone : String → Option GoTime := fun _ => none

/-- Stand-in for `time.Parse` that recognizes one concrete RFC3339
string; used to instantiate the parser parameter in witnesses. -/
def parseTimeStd : String → Option GoTime :=
  fun s => if s = "2024-01-01T00:00:00Z" then some ⟨s⟩ else none

/-- Concrete coordinate formatter for witnesses, standing in for
`fmt.Sprintf("%f", ·)`. -/
def fmtBits : GoFloat → String := fun x => toString x.bits

/-- Concrete network environment for witnesses in which every URL is
unreachable. -/
def envAllDown : String → HttpResult := fun _ => HttpResult.transportError

/-- Sample gateway with one check, for witnesses. -/
def gwOne : Gateway :=
  { name := "gw1", location := zeroLocation,
    checks := [{ type := "http", url := "http://a.example/status" }] }

/-- Sample gateway with zero checks, for witnesses. -/
def gwZero : Gateway :=
  { name := "gw0", location := zeroLocation, checks := [] }

/-- Sample two-gateway configuration, for the dashboard counterexample. -/
def sampleTwoGateways : GatewaysFile :=
  { gateways := [gwOne, { name := "gw2", location := ⟨⟨7⟩, ⟨9⟩⟩, checks := [] }] }

/-! Helper lemmas about the association-list series maps. -/

theorem setAssoc_length_le {K V : Type} [DecidableEq K] (k : K) (v : V) (s : List (K × V)) :
    (setAssoc k v s).length ≤ s.length + 1 := by
  induction s with
  | nil => simp [setAssoc]
  | cons hd tl ih =>
    obtain ⟨k2, v2⟩ := hd
    by_cases h : k2 = k
    · simp [setAssoc, h]
    · simp only [setAssoc, if_neg h, List.length_cons]
      omega

theorem setAssoc_setAssoc_self {K V : Type} [DecidableEq K] (k : K) (v : V)
    (s : List (K × V)) : setAssoc k v (setAssoc k v s) = setAssoc k v s := by
  induction s with
  | nil => simp [setAssoc]
  | cons hd tl ih =>
    obtain ⟨k2, v2⟩ := hd
    by_cases h : k2 = k
    · simp [setAssoc, h]
    · simp [setAssoc, h, ih]

theorem lookupAssoc_setAssoc_self {K V : Type} [DecidableEq K] (k : K) (v : V)
    (s : List (K × V)) : lookupAssoc k (setAssoc k v s) = some v := by
  induction s with
  | nil => simp [setAssoc, lookupAssoc]
  | cons hd tl ih =>
    obtain ⟨k2, v2⟩ := hd
    by_cases h : k2 = k
    · simp [setAssoc, h, lookupAssoc]
    · simp [setAssoc, h, lookupAssoc, ih]

theorem lookupAssoc_setAssoc_ne {K V : Type} [DecidableEq K] {k' k : K} (v : V)
    (s : List (K × V)) (h : k' ≠ k) :
    lookupAssoc k' (setAssoc k v s) = lookupAssoc k' s := by
  have hs : k ≠ k' := Ne.symm h
  induction s with
  | nil => simp [setAssoc, lookupAssoc, hs]
  | cons hd tl ih =>
    obtain ⟨k2, v2⟩ := hd
    by_cases h2 : k2 = k
    · subst h2
      simp [setAssoc, lookupAssoc, hs]
    · simp [setAssoc, h2, lookupAssoc, ih]

theorem lookupAssoc_setAssoc_isSome {K V : Type} [DecidableEq K] {k' : K} (k : K) (v : V)
    {s : List (K × V)} (h : (lookupAssoc k' s).isSome) :
    (lookupAssoc k' (setAssoc k v s)).isSome := by
  by_cases hk : k' = k
  · subst hk
    simp [lookupAssoc_setAssoc_self]
  · rwa [lookupAssoc_setAssoc_ne v s hk]

theorem mem_keysOf_setAssoc {K V : Type} [DecidableEq K] {a k : K} (v : V)
    (s : List (K × V)) : a ∈ keysOf (setAssoc k v s) ↔ a = k ∨ a ∈ keysOf s := by
  induction s with
  | nil => simp [setAssoc, keysOf]
  | cons hd tl ih =>
    obtain ⟨k2, v2⟩ := hd
    by_cases h : k2 = k
    · subst h
      simp [setAssoc, keysOf]
    · simp only [setAssoc, if_neg h, keysOf, List.map_cons, List.mem_cons] at ih ⊢
      rw [ih]
      tauto

theorem keysOf_setAssoc_nodup {K V : Type} [DecidableEq K] (k : K) (v : V)
    {s : List (K × V)} (h : (keysOf s).Nodup) : (keysOf (setAssoc k v s)).Nodup := by
  induction s with
  | nil => simp [setAssoc, keysOf]
  | cons hd tl ih =>
    obtain ⟨k2, v2⟩ := hd
    simp only [keysOf, List.map_cons, List.nodup_cons] at h
    by_cases h2 : k2 = k
    · subst h2
      simpa [setAssoc, keysOf, List.nodup_cons] using h
    · have := ih h.2
      simp only [setAssoc, if_neg h2, keysOf, List.map_cons, List.nodup_cons]
      refine ⟨?_, this⟩
      intro hmem
      rcases (mem_keysOf_setAssoc v tl).mp hmem with h3 | h3
      · exact h2 h3
      · exact h.1 h3

/-! Helper lemmas about the per-check loop of `UpdateGatewayStatus`. -/

theorem foldl_processCheck_trace (pt : String → Option GoTime) (env : String → HttpResult)
    (name : String) (checks : List Check) :
    ∀ acc : Registry × List String,
      (checks.foldl (processCheck pt env name) acc).2 = acc.2 ++ checks.map (fun c => c.url) := by
  induction checks with
  | nil => intro acc; simp
  | cons c rest ih =>
    intro acc
    simp only [List.foldl_cons, List.map_cons]
    rw [ih]
    simp [processCheck]

theorem foldl_processCheck_location (pt : String → Option GoTime) (env : String → HttpResult)
    (name : String) (checks : List Check) :
    ∀ acc : Registry × List String,
      (checks.foldl (processCheck pt env name) acc).1.gatewayLocation =
        acc.1.gatewayLocation := by
  induction checks with
  | nil => intro acc; simp
  | cons c rest ih =>
    intro acc
    simp only [List.foldl_cons]
    rw [ih]
    simp [processCheck, setLinkStatus, setLastUpdate]

theorem foldl_processCheck_linkStatus_length (pt : String → Option GoTime)
    (env : String → HttpResult) (name : String) (checks : List Check) :
    ∀ acc : Registry × List String,
      (checks.foldl (processCheck pt env name) acc).1.gatewayLinkStatus.length ≤
        acc.1.gatewayLinkStatus.length + checks.length := by
  induction checks with
  | nil => intro acc; simp
  | cons c rest ih =>
    intro acc
    simp only [List.foldl_cons, List.length_cons]
    have h1 := ih (processCheck pt env name acc c)
    have h2 : (processCheck pt env name acc c).1.gatewayLinkStatus.length ≤
        acc.1.gatewayLinkStatus.length + 1 := by
      simpa [processCheck, setLinkStatus, setLastUpdate] using
        setAssoc_length_le (name, c.url)
          (if (FetchGatewayLinkStatus pt (env c.url)).1 then 1 else 0)
          acc.1.gatewayLinkStatus
    omega

theorem foldl_processCheck_linkStatus_isSome (pt : String → Option GoTime)
    (env : String → HttpResult) (name : String) (checks : List Check)
    (key : String × String) :
    ∀ acc : Registry × List String,
      (lookupAssoc key acc.1.gatewayLinkStatus).isSome →
        (lookupAssoc key
          (checks.foldl (processCheck pt env name) acc).1.gatewayLinkStatus).isSome := by
  induction checks with
  | nil => intro acc h; simpa using h
  | cons c rest ih =>
    intro acc h
    simp only [List.foldl_cons]
    refine ih _ ?_
    simp only [processCheck, setLinkStatus, setLastUpdate]
    exact lookupAssoc_setAssoc_isSome _ _ h

theorem foldl_processCheck_lastUpdate_isSome (pt : String → Option GoTime)
    (env : String → HttpResult) (name : String) (checks : List Check)
    (key : String × String) :
    ∀ acc : Registry × List String,
      (lookupAssoc key acc.1.gatewayLastUpdate).isSome →
        (lookupAssoc key
          (checks.foldl (processCheck pt env name) acc).1.gatewayLastUpdate).isSome := by
  induction checks with
  | nil => intro acc h; simpa using h
  | cons c rest ih =>
    intro acc h
    simp only [List.foldl_cons]
    refine ih _ ?_
    simp only [processCheck, setLinkStatus, setLastUpdate]
    exact lookupAssoc_setAssoc_isSome _ _ h

theorem foldl_processCheck_linkStatus_mem (pt : String → Option GoTime)
    (env : String → HttpResult) (name : String) (c : Check) (checks : List Check) :
    ∀ acc : Registry × List String, c ∈ checks →
      (lookupAssoc (name, c.url)
        (checks.foldl (processCheck pt env name) acc).1.gatewayLinkStatus).isSome := by
  induction checks with
  | nil => intro acc hc; cases hc
  | cons c0 rest ih =>
    intro acc hc
    rcases List.mem_cons.mp hc with h | h
    · subst h
      simp only [List.foldl_cons]
      refine foldl_processCheck_linkStatus_isSome pt env name rest _ _ ?_
      simp only [processCheck, setLinkStatus, setLastUpdate]
      simp [lookupAssoc_setAssoc_self]
    · simp only [List.foldl_cons]
      exact ih _ h

theorem foldl_processCheck_lastUpdate_mem (pt : String → Option GoTime)
    (env : String → HttpResult) (name : String) (c : Check) (checks : List Check) :
    ∀ acc : Registry × List String, c ∈ checks →
      (lookupAssoc (name, formatRFC3339 (FetchGatewayLinkStatus pt (env c.url)).2)
        (checks.foldl (processCheck pt env name) acc).1.gatewayLastUpdate).isSome := by
  induction checks with
  | nil => intro acc hc; cases hc
  | cons c0 rest ih =>
    intro acc hc
    rcases List.mem_cons.mp hc with h | h
    · subst h
      simp only [List.foldl_cons]
      refine foldl_processCheck_lastUpdate_isSome pt env name rest _ _ ?_
      simp only [processCheck, setLinkStatus, setLastUpdate]
      simp [lookupAssoc_setAssoc_self]
    · simp only [List.foldl_cons]
      exact ih _ h

/-! Helper lemmas about `UpdateGatewayStatus` and one monitor cycle. -/

theorem UpdateGatewayStatus_trace (pt : String → Option GoTime) (fmtF : GoFloat → String)
    (env : String → HttpResult) (reg : Registry) (gw : Gateway) :
    (UpdateGatewayStatus pt fmtF env reg gw).2 = gw.checks.map (fun c => c.url) := by
  unfold UpdateGatewayStatus
  rw [foldl_processCheck_trace]
  simp

theorem UpdateGatewayStatus_location (pt : String → Option GoTime) (fmtF : GoFloat → String)
    (env : String → HttpResult) (reg : Registry) (gw : Gateway) :
    (UpdateGatewayStatus pt fmtF env reg gw).1.gatewayLocation =
      setAssoc (gw.name, fmtF gw.location.latitude, fmtF gw.location.longitude) 1
        reg.gatewayLocation := by
  unfold UpdateGatewayStatus
  rw [foldl_processCheck_location]
  simp [setLocation]

theorem UpdateGatewayStatus_linkStatus_length (pt : String → Option GoTime)
    (fmtF : GoFloat → String) (env : String → HttpResult) (reg : Registry) (gw : Gateway) :
    (UpdateGatewayStatus pt fmtF env reg gw).1.gatewayLinkStatus.length ≤
      reg.gatewayLinkStatus.length + gw.checks.length := by
  unfold UpdateGatewayStatus
  have := foldl_processCheck_linkStatus_length pt env gw.name gw.checks
    (setLocation reg gw.name (fmtF gw.location.latitude) (fmtF gw.location.longitude), [])
  simpa [setLocation] using this

theorem foldl_cycleStep_trace (pt : String → Option GoTime) (fmtF : GoFloat → String)
    (env : String → HttpResult) (gws : List Gateway) :
    ∀ acc : Registry × List String,
      (gws.foldl (cycleStep pt fmtF env) acc).2 =
        acc.2 ++ (gws.map (fun gw => gw.checks.map (fun c => c.url))).flatten := by
  induction gws with
  | nil => intro acc; simp
  | cons gw rest ih =>
    intro acc
    simp only [List.foldl_cons, List.map_cons, List.flatten]
    rw [ih]
    simp [cycleStep, UpdateGatewayStatus_trace]

theorem foldl_cycleStep_linkStatus_length (pt : String → Option GoTime)
    (fmtF : GoFloat → String) (env : String → HttpResult) (gws : List Gateway) :
    ∀ acc : Registry × List String,
      (gws.foldl (cycleStep pt fmtF env) acc).1.gatewayLinkStatus.length ≤
        acc.1.gatewayLinkStatus.length + (gws.map (fun gw => gw.checks.length)).sum := by
  induction gws with
  | nil => intro acc; simp
  | cons gw rest ih =>
    intro acc
    simp only [List.foldl_cons, List.map_cons, List.sum_cons]
    have h1 := ih (cycleStep pt fmtF env acc gw)
    have h2 : (cycleStep pt fmtF env acc gw).1.gatewayLinkStatus.length ≤
        acc.1.gatewayLinkStatus.length + gw.checks.length := by
      simpa [cycleStep] using
        UpdateGatewayStatus_linkStatus_length pt fmtF env acc.1 gw
    omega

theorem foldl_cycleStep_location_length (pt : String → Option GoTime)
    (fmtF : GoFloat → String) (env : String → HttpResult) (gws : List Gateway) :
    ∀ acc : Registry × List String,
      (gws.foldl (cycleStep pt fmtF env) acc).1.gatewayLocation.length ≤
        acc.1.gatewayLocation.length + gws.length := by
  induction gws with
  | nil => intro acc; simp
  | cons gw rest ih =>
    intro acc
    simp only [List.foldl_cons, List.length_cons]
    have h1 := ih (cycleStep pt fmtF env acc gw)
    have h2 : (cycleStep pt fmtF env acc gw).1.gatewayLocation.length ≤
        acc.1.gatewayLocation.length + 1 := by
      have := UpdateGatewayStatus_location pt fmtF env acc.1 gw
      simp only [cycleStep]
      rw [this]
      exact setAssoc_length_le _ _ _
    omega

/-- Wrapping reduction is the identity on values already inside the
signed 64-bit range (nonnegative case). -/
theorem wrap64_eq_self {n : Int} (h0 : 0 ≤ n) (h1 : n < 9223372036854775808) :
    wrap64 n = n := by
  unfold wrap64
  have h2 : (n + 9223372036854775808) % 18446744073709551616 =
      n + 9223372036854775808 :=
    Int.emod_eq_of_lt (by omega) (by omega)
  omega

/-! Claim theorems. -/

/-- C1: fetch is total and degrades every failure to `(false, none)`:
transport failure, non-success HTTP status, an unreadable body, a
malformed (non-object) JSON body, and a parsed body lacking a
recognizable online field all yield `(false, none)`, never an error. -/
theorem C1_fetch_failures_degrade_to_offline :
    (∀ pt, FetchGatewayLinkStatus pt HttpResult.transportError = (false, none)) ∧
    (∀ pt status body, status ≠ 200 →
      FetchGatewayLinkStatus pt (HttpResult.response status body) = (false, none)) ∧
    (∀ pt status,
      FetchGatewayLinkStatus pt (HttpResult.response status BodyResult.readError) =
        (false, none)) ∧
    (∀ pt status,
      FetchGatewayLinkStatus pt (HttpResult.response status BodyResult.notObject) =
        (false, none)) ∧
    (∀ pt status fields, asBool (lookupAssoc "online" fields) = none →
      FetchGatewayLinkStatus pt (HttpResult.response status (BodyResult.object fields)) =
        (false, none)) := by
  refine ⟨fun pt => rfl, ?_, ?_, ?_, ?_⟩
  · intro pt status body h
    simp [FetchGatewayLinkStatus, h]
  · intro pt status
    by_cases h : status = 200 <;> simp [FetchGatewayLinkStatus, h]
  · intro pt status
    by_cases h : status = 200 <;> simp [FetchGatewayLinkStatus, h]
  · intro pt status fields hf
    by_cases h : status = 200 <;> simp [FetchGatewayLinkStatus, h, hf]

/-- Witness for C1: the failure cases at concrete inputs — HTTP 500 with
a well-formed body, and HTTP 200 with a body lacking any online field. -/
theorem C1_fetch_failures_degrade_to_offline_witness :
    FetchGatewayLinkStatus parseTimeNone
      (HttpResult.response 500 (BodyResult.object [("online", Json.bool true)])) =
      (false, none) ∧
    FetchGatewayLinkStatus parseTimeNone
      (HttpResult.response 200 (BodyResult.object [("status", Json.str "up")])) =
      (false, none) :=
  ⟨C1_fetch_failures_degrade_to_offline.2.1 parseTimeNone 500 _ (by decide),
   C1_fetch_failures_degrade_to_offline.2.2.2.2 parseTimeNone 200 _ (by decide)⟩

/-- C2 counterexample: for a gateway named gw1 and the nested body
`{"gw1": {"online": true}}`, the precedence claimed by the spec locates
the nested value `true`, but the code's fetch — which never receives the
gateway name and performs no nested lookup — returns `(false, none)`. -/
theorem C2_nested_lookup_counterexample :
    specLocateOnline "gw1" [("gw1", Json.obj [("online", Json.bool true)])] = some true ∧
    FetchGatewayLinkStatus parseTimeNone
      (HttpResult.response 200
        (BodyResult.object [("gw1", Json.obj [("online", Json.bool true)])])) =
      (false, none) := by
  constructor
  · decide
  · decide

/-- C2 amended: the fetcher consults only a top-level boolean field
named `online`; the gateway's own name plays no role and no nested
lookup exists. Any parsed object body without a top-level boolean
`online` yields `(false, none)` — including the nested gateway-keyed
forms, with either nested value. -/
theorem C2_top_level_online_only :
    (∀ pt fields b, asBool (lookupAssoc "online" fields) = some b →
      (FetchGatewayLinkStatus pt (HttpResult.response 200 (BodyResult.object fields))).1 = b) ∧
    (∀ pt status fields, asBool (lookupAssoc "online" fields) = none →
      FetchGatewayLinkStatus pt (HttpResult.response status (BodyResult.object fields)) =
        (false, none)) ∧
    FetchGatewayLinkStatus parseTimeNone
      (HttpResult.response 200
        (BodyResult.object [("gw1", Json.obj [("online", Json.bool false)])])) =
      (false, none) ∧
    FetchGatewayLinkStatus parseTimeNone
      (HttpResult.response 200
        (BodyResult.object [("gw1", Json.obj [("online", Json.bool true)])])) =
      (false, none) := by
  refine ⟨?_, ?_, by decide, by decide⟩
  · intro pt fields b hb
    rcases e : asString (lookupAssoc "updatedAt" fields) with _ | s
    · simp [FetchGatewayLinkStatus, hb, e]
    · rcases e2 : pt s with _ | t <;> simp [FetchGatewayLinkStatus, hb, e, e2]
  · intro pt status fields hf
    by_cases h : status = 200 <;> simp [FetchGatewayLinkStatus, h, hf]

/-- Witness for C2 amended: top-level `{"online": true}` is used, and a
body with only a nested form yields `(false, none)`. -/
theorem C2_top_level_online_only_witness :
    (FetchGatewayLinkStatus parseTimeNone
      (HttpResult.response 200 (BodyResult.object [("online", Json.bool true)]))).1 = true ∧
    FetchGatewayLinkStatus parseTimeNone
      (HttpResult.response 200
        (BodyResult.object [("gw1", Json.obj [("online", Json.bool true)])])) =
      (false, none) :=
  ⟨C2_top_level_online_only.1 parseTimeNone [("online", Json.bool true)] true (by decide),
   C2_top_level_online_only.2.2.2⟩

/-- C7: when a top-level boolean `online` is found (HTTP 200, object
body), a present `updatedAt` string that parses is returned as the
observed timestamp; an absent or unparsable `updatedAt` leaves the
timestamp absent while the online value is returned unchanged. -/
theorem C7_updatedAt_extraction :
    (∀ pt fields b s t, asBool (lookupAssoc "online" fields) = some b →
      asString (lookupAssoc "updatedAt" fields) = some s → pt s = some t →
      FetchGatewayLinkStatus pt (HttpResult.response 200 (BodyResult.object fields)) =
        (b, some t)) ∧
    (∀ pt fields b, asBool (lookupAssoc "online" fields) = some b →
      asString (lookupAssoc "updatedAt" fields) = none →
      FetchGatewayLinkStatus pt (HttpResult.response 200 (BodyResult.object fields)) =
        (b, none)) ∧
    (∀ pt fields b s, asBool (lookupAssoc "online" fields) = some b →
      asString (lookupAssoc "updatedAt" fields) = some s → pt s = none →
      FetchGatewayLinkStatus pt (HttpResult.response 200 (BodyResult.object fields)) =
        (b, none)) := by
  refine ⟨?_, ?_, ?_⟩
  · intro pt fields b s t h1 h2 h3
    simp [FetchGatewayLinkStatus, h1, h2, h3]
  · intro pt fields b h1 h2
    simp [FetchGatewayLinkStatus, h1, h2]
  · intro pt fields b s h1 h2 h3
    simp [FetchGatewayLinkStatus, h1, h2, h3]

/-- Witness for C7: the spec's own example body
`{"online": true, "updatedAt": "2024-01-01T00:00:00Z"}` yields
`(true, that timestamp)`; without `updatedAt` or with an unparsable one,
the timestamp is absent. -/
theorem C7_updatedAt_extraction_witness :
    FetchGatewayLinkStatus parseTimeStd
      (HttpResult.response 200 (BodyResult.object
        [("online", Json.bool true), ("updatedAt", Json.str "2024-01-01T00:00:00Z")])) =
      (true, some ⟨"2024-01-01T00:00:00Z"⟩) ∧
    FetchGatewayLinkStatus parseTimeStd
      (HttpResult.response 200 (BodyResult.object [("online", Json.bool true)])) =
      (true, none) ∧
    FetchGatewayLinkStatus parseTimeStd
      (HttpResult.response 200 (BodyResult.object
        [("online", Json.bool false), ("updatedAt", Json.str "garbage")])) =
      (false, none) :=
  ⟨C7_updatedAt_extraction.1 parseTimeStd _ true "2024-01-01T00:00:00Z"
      ⟨"2024-01-01T00:00:00Z"⟩ (by decide) (by decide) (by decide),
   C7_updatedAt_extraction.2.1 parseTimeStd _ true (by decide) (by decide),
   C7_updatedAt_extraction.2.2 parseTimeStd _ false "garbage" (by decide) (by decide)
     (by decide)⟩

/-- C10: the two backend variants agree on the status component — for
every HTTP outcome the boolean returned by the simpler variant equals
the first component of the pair returned by the timestamp-extracting
variant, for any timestamp parser. -/
theorem C10_variants_agree_on_status :
    ∀ (pt : String → Option GoTime) (resp : HttpResult),
      FetchGatewayLinkStatusSimple resp = (FetchGatewayLinkStatus pt resp).1 := by
  intro pt resp
  cases resp with
  | transportError => rfl
  | response status body =>
    by_cases h : status = 200
    · cases body with
      | readError => simp [FetchGatewayLinkStatusSimple, FetchGatewayLinkStatus, h]
      | notObject => simp [FetchGatewayLinkStatusSimple, FetchGatewayLinkStatus, h]
      | object fields =>
        rcases e : asBool (lookupAssoc "online" fields) with _ | b
        · simp [FetchGatewayLinkStatusSimple, FetchGatewayLinkStatus, h, e]
        · rcases e2 : asString (lookupAssoc "updatedAt" fields) with _ | s
          · simp [FetchGatewayLinkStatusSimple, FetchGatewayLinkStatus, h, e, e2]
          · rcases e3 : pt s with _ | t <;>
              simp [FetchGatewayLinkStatusSimple, FetchGatewayLinkStatus, h, e, e2, e3]
    · simp [FetchGatewayLinkStatusSimple, FetchGatewayLinkStatus, h]

/-- C3: one full cycle over N gateways with M links in total fetches
exactly the M configured URLs, in configuration order; afterwards at
most M link-status series and at most N location series exist; a
gateway with zero checks contributes no link-status series but its
location series is present. -/
theorem C3_cycle_fetch_count_and_series_bounds :
    ∀ (pt : String → Option GoTime) (fmtF : GoFloat → String) (env : String → HttpResult)
      (gf : GatewaysFile),
      (MonitorCycle pt fmtF env gf emptyRegistry).2 =
        (gf.gateways.map (fun gw => gw.checks.map (fun c => c.url))).flatten ∧
      (MonitorCycle pt fmtF env gf emptyRegistry).2.length = totalChecks gf ∧
      (MonitorCycle pt fmtF env gf emptyRegistry).1.gatewayLinkStatus.length ≤
        totalChecks gf ∧
      (MonitorCycle pt fmtF env gf emptyRegistry).1.gatewayLocation.length ≤
        gf.gateways.length ∧
      (∀ (reg : Registry) (gw : Gateway), gw.checks = [] →
        (UpdateGatewayStatus pt fmtF env reg gw).1.gatewayLinkStatus =
          reg.gatewayLinkStatus ∧
        (lookupAssoc (gw.name, fmtF gw.location.latitude, fmtF gw.location.longitude)
          (UpdateGatewayStatus pt fmtF env reg gw).1.gatewayLocation).isSome) := by
  intro pt fmtF env gf
  have htrace : (MonitorCycle pt fmtF env gf emptyRegistry).2 =
      (gf.gateways.map (fun gw => gw.checks.map (fun c => c.url))).flatten := by
    unfold MonitorCycle
    rw [foldl_cycleStep_trace]
    simp
  refine ⟨htrace, ?_, ?_, ?_, ?_⟩
  · rw [htrace]
    simp [List.length_flatten, List.map_map, Function.comp_def, totalChecks]
  · have := foldl_cycleStep_linkStatus_length pt fmtF env gf.gateways (emptyRegistry, [])
    simpa [MonitorCycle, emptyRegistry, totalChecks] using this
  · have := foldl_cycleStep_location_length pt fmtF env gf.gateways (emptyRegistry, [])
    simpa [MonitorCycle, emptyRegistry] using this
  · intro reg gw hzero
    constructor
    · simp [UpdateGatewayStatus, hzero, setLocation]
    · rw [UpdateGatewayStatus_location]
      simp [lookupAssoc_setAssoc_self]

/-- Witness for C3: a concrete two-gateway configuration (one check in
total) fetches exactly its one URL, with the series bounds; the
zero-check gateway leaves the link-status map empty while its location
series is present. -/
theorem C3_cycle_fetch_count_and_series_bounds_witness :
    (MonitorCycle parseTimeNone fmtBits envAllDown sampleTwoGateways emptyRegistry).2 =
      (sampleTwoGateways.gateways.map (fun gw => gw.checks.map (fun c => c.url))).flatten ∧
    (MonitorCycle parseTimeNone fmtBits envAllDown sampleTwoGateways emptyRegistry).2.length =
      totalChecks sampleTwoGateways ∧
    (UpdateGatewayStatus parseTimeNone fmtBits envAllDown emptyRegistry
        gwZero).1.gatewayLinkStatus = emptyRegistry.gatewayLinkStatus ∧
    (lookupAssoc (gwZero.name, fmtBits gwZero.location.latitude,
        fmtBits gwZero.location.longitude)
      (UpdateGatewayStatus parseTimeNone fmtBits envAllDown emptyRegistry
        gwZero).1.gatewayLocation).isSome :=
  ⟨(C3_cycle_fetch_count_and_series_bounds parseTimeNone fmtBits envAllDown
      sampleTwoGateways).1,
   (C3_cycle_fetch_count_and_series_bounds parseTimeNone fmtBits envAllDown
      sampleTwoGateways).2.1,
   ((C3_cycle_fetch_count_and_series_bounds parseTimeNone fmtBits envAllDown
      sampleTwoGateways).2.2.2.2 emptyRegistry gwZero (by decide)).1,
   ((C3_cycle_fetch_count_and_series_bounds parseTimeNone fmtBits envAllDown
      sampleTwoGateways).2.2.2.2 emptyRegistry gwZero (by decide)).2⟩

/-- C4 counterexample: for a single check whose fetch obtains no
timestamp (transport failure), the claim says no last-update series is
written for that check — but the code writes one unconditionally,
labeled with the rendered zero time. -/
theorem C4_lastUpdate_written_without_timestamp :
    (FetchGatewayLinkStatus parseTimeNone (envAllDown "http://a.example/status")).2 = none ∧
    (UpdateGatewayStatus parseTimeNone fmtBits envAllDown emptyRegistry
        gwOne).1.gatewayLastUpdate =
      [(("gw1", "0001-01-01T00:00:00Z"), 1)] ∧
    (UpdateGatewayStatus parseTimeNone fmtBits envAllDown emptyRegistry
        gwOne).1.gatewayLastUpdate ≠ [] := by
  refine ⟨by decide, by decide, by decide⟩

/-- C4 amended: for every gateway processed in a cycle iteration, the
location marker is published, and for every check the link-status series
is published and a last-update series is published unconditionally —
labeled with the formatted observed timestamp, or with the rendered zero
time `0001-01-01T00:00:00Z` when no timestamp was obtained. -/
theorem C4_publishes_per_check :
    ∀ (pt : String → Option GoTime) (fmtF : GoFloat → String) (env : String → HttpResult)
      (reg : Registry) (gw : Gateway),
      (lookupAssoc (gw.name, fmtF gw.location.latitude, fmtF gw.location.longitude)
        (UpdateGatewayStatus pt fmtF env reg gw).1.gatewayLocation).isSome ∧
      ∀ c ∈ gw.checks,
        (lookupAssoc (gw.name, c.url)
          (UpdateGatewayStatus pt fmtF env reg gw).1.gatewayLinkStatus).isSome ∧
        (lookupAssoc (gw.name, formatRFC3339 (FetchGatewayLinkStatus pt (env c.url)).2)
          (UpdateGatewayStatus pt fmtF env reg gw).1.gatewayLastUpdate).isSome := by
  intro pt fmtF env reg gw
  constructor
  · rw [UpdateGatewayStatus_location]
    simp [lookupAssoc_setAssoc_self]
  · intro c hc
    constructor
    · unfold UpdateGatewayStatus
      exact foldl_processCheck_linkStatus_mem pt env gw.name c gw.checks _ hc
    · unfold UpdateGatewayStatus
      exact foldl_processCheck_lastUpdate_mem pt env gw.name c gw.checks _ hc

/-- Witness for C4 amended, at the one-check gateway with an unreachable
link. -/
theorem C4_publishes_per_check_witness :
    (lookupAssoc ("gw1", "http://a.example/status")
      (UpdateGatewayStatus parseTimeNone fmtBits envAllDown emptyRegistry
        gwOne).1.gatewayLinkStatus).isSome ∧
    (lookupAssoc ("gw1",
        formatRFC3339 (FetchGatewayLinkStatus parseTimeNone
          (envAllDown "http://a.example/status")).2)
      (UpdateGatewayStatus parseTimeNone fmtBits envAllDown emptyRegistry
        gwOne).1.gatewayLastUpdate).isSome :=
  ⟨((C4_publishes_per_check parseTimeNone fmtBits envAllDown emptyRegistry gwOne).2
      { type := "http", url := "http://a.example/status" } (by decide)).1,
   ((C4_publishes_per_check parseTimeNone fmtBits envAllDown emptyRegistry gwOne).2
      { type := "http", url := "http://a.example/status" } (by decide)).2⟩

/-- C5 counterexample: for a two-gateway configuration the claim
requires two dashboard files at gateway-name-derived paths with each
gateway's coordinates substituted — but the renderer writes exactly one
file, at a constant path, with constant content executed from `nil`
data. -/
theorem C5_single_fixed_dashboard_counterexample :
    sampleTwoGateways.gateways.length = 2 ∧
    (createDashboardFile []).length = 1 ∧
    keysOf (createDashboardFile []) = [dashboardPath] ∧
    lookupAssoc dashboardPath (createDashboardFile []) = some dashboardTemplate := by
  refine ⟨rfl, rfl, rfl, lookupAssoc_setAssoc_self _ _ _⟩

/-- C5 amended: rendering after a successful load produces exactly one
dashboard file regardless of the configuration, at the fixed path
`/var/lib/grafana/dashboards/gateway-dashboard.json`, whose content is
the fixed template with no gateway data (in particular no coordinates)
substituted; repeated rendering is idempotent. -/
theorem C5_render_writes_single_fixed_file :
    (∀ fs : FileSystem, createDashboardFile fs = setAssoc dashboardPath dashboardTemplate fs) ∧
    (∀ fs : FileSystem,
      lookupAssoc dashboardPath (createDashboardFile fs) = some dashboardTemplate) ∧
    (∀ fs : FileSystem, (createDashboardFile fs).length ≤ fs.length + 1) ∧
    createDashboardFile (createDashboardFile []) = createDashboardFile [] := by
  refine ⟨fun fs => rfl, ?_, ?_, ?_⟩
  · intro fs
    exact lookupAssoc_setAssoc_self _ _ _
  · intro fs
    exact setAssoc_length_le _ _ _
  · exact setAssoc_setAssoc_self _ _ _

/-- C6: publishing the same `(gatewayName, url, online)` twice in
succession leaves the registry identical to publishing it once, and a
write never introduces a duplicate series for the same label
combination. -/
theorem C6_setLinkStatus_idempotent_no_duplicates :
    ∀ (reg : Registry) (gatewayName url : String) (online : Bool),
      setLinkStatus (setLinkStatus reg gatewayName url online) gatewayName url online =
        setLinkStatus reg gatewayName url online ∧
      ((keysOf reg.gatewayLinkStatus).Nodup →
        (keysOf (setLinkStatus reg gatewayName url online).gatewayLinkStatus).Nodup) := by
  intro reg n u o
  constructor
  · simp [setLinkStatus, setAssoc_setAssoc_self]
  · intro h
    simp only [setLinkStatus]
    exact keysOf_setAssoc_nodup _ _ h

/-- Witness for C6 at a concrete registry write. -/
theorem C6_setLinkStatus_idempotent_no_duplicates_witness :
    setLinkStatus (setLinkStatus emptyRegistry "gw1" "http://a.example/status" true)
        "gw1" "http://a.example/status" true =
      setLinkStatus emptyRegistry "gw1" "http://a.example/status" true ∧
    (keysOf (setLinkStatus emptyRegistry "gw1" "http://a.example/status"
        true).gatewayLinkStatus).Nodup :=
  ⟨(C6_setLinkStatus_idempotent_no_duplicates emptyRegistry "gw1"
      "http://a.example/status" true).1,
   (C6_setLinkStatus_idempotent_no_duplicates emptyRegistry "gw1"
      "http://a.example/status" true).2 (by decide)⟩

/-- C8 counterexample: `FETCH_INTERVAL="1000000000"` is a positive
integer, yet the computed cycle interval is not 10^9 minutes — the
64-bit duration multiplication `time.Duration(interval) * time.Minute`
wraps. -/
theorem C8_interval_overflow_counterexample :
    goAtoi "1000000000" = some 1000000000 ∧
    fetchIntervalOf (some "1000000000") ≠ 1000000000 * minuteNs := by
  constructor
  · decide
  · decide

/-- C8 amended: an absent, non-integer, out-of-64-bit-range or
non-positive `FETCH_INTERVAL` yields the default interval of one
minute; a positive 64-bit value n yields n*60*10^9 nanoseconds computed
in wrapping signed 64-bit arithmetic, which equals n minutes exactly
when the product stays within the signed 64-bit range
(n ≤ 153722867). -/
theorem C8_interval_semantics :
    fetchIntervalOf none = minuteNs ∧
    (∀ s, goAtoi s = none → fetchIntervalOf (some s) = minuteNs) ∧
    (∀ s n, goAtoi s = some n → n ≤ 0 → fetchIntervalOf (some s) = minuteNs) ∧
    (∀ s n, goAtoi s = some n → 0 < n →
      fetchIntervalOf (some s) = wrap64 (n * minuteNs)) ∧
    (∀ n : Int, 0 < n → n ≤ 153722867 → wrap64 (n * minuteNs) = n * minuteNs) := by
  refine ⟨by decide, ?_, ?_, ?_, ?_⟩
  · intro s h
    simp [fetchIntervalOf, h]
  · intro s n h h2
    simp [fetchIntervalOf, h, h2]
  · intro s n h h2
    have h3 : ¬ n ≤ 0 := not_le.mpr h2
    simp [fetchIntervalOf, h, h3]
  · intro n h1 h2
    have hb : n * 60000000000 ≤ 153722867 * 60000000000 :=
      mul_le_mul_of_nonneg_right h2 (by norm_num)
    have h0 : 0 ≤ n * 60000000000 :=
      mul_nonneg (le_of_lt h1) (by norm_num)
    have := wrap64_eq_self h0 (by omega)
    simpa [minuteNs] using this

/-- Witness for C8 amended, covering the absent, malformed, negative and
small positive values of `FETCH_INTERVAL`. -/
theorem C8_interval_semantics_witness :
    fetchIntervalOf none = minuteNs ∧
    fetchIntervalOf (some "abc") = minuteNs ∧
    fetchIntervalOf (some "-3") = minuteNs ∧
    fetchIntervalOf (some "5") = 5 * minuteNs := by
  refine ⟨C8_interval_semantics.1,
    C8_interval_semantics.2.1 "abc" (by decide),
    C8_interval_semantics.2.2.1 "-3" (-3) (by decide) (by decide), ?_⟩
  rw [C8_interval_semantics.2.2.2.1 "5" 5 (by decide) (by decide),
    C8_interval_semantics.2.2.2.2 5 (by decide) (by decide)]

/-- C9: configuration load fails exactly when the file cannot be read or
its content does not parse and decode as the expected JSON shape;
missing fields are tolerated as zero values rather than failing; load is
a pure function of the read outcome, so the read is its only effect. -/
theorem C9_load_error_conditions :
    (∀ r : ReadResult, (LoadGatewaysConfig r).isSome ↔
      ∃ doc, r = ReadResult.ok (some doc) ∧ (decodeGatewaysFile doc).isSome) ∧
    decodeGatewaysFile (Json.obj []) = some { gateways := [] } ∧
    decodeGateway (Json.obj []) = some zeroGateway ∧
    decodeGateway (Json.obj [("name", Json.str "gw1")]) =
      some { name := "gw1", location := zeroLocation, checks := [] } ∧
    decodeGatewaysFile
        (Json.obj [("gateways", Json.arr [Json.obj [("name", Json.str "gw1")]])]) =
      some { gateways := [{ name := "gw1", location := zeroLocation, checks := [] }] } ∧
    LoadGatewaysConfig ReadResult.readError = none ∧
    LoadGatewaysConfig (ReadResult.ok none) = none ∧
    LoadGatewaysConfig (ReadResult.ok (some (Json.str "not an object"))) = none := by
  refine ⟨?_, by decide, by decide, by decide, by decide, by decide, by decide, by decide⟩
  intro r
  cases r with
  | readError => simp [LoadGatewaysConfig]
  | ok doc =>
    cases doc with
    | none => simp [LoadGatewaysConfig]
    | some d => simp [LoadGatewaysConfig]

end LoRaCheck
